import Mathlib

/-!
Verification of the TSL550 tunable-laser driver (`TSL550.py`).

The driver is a single Python class speaking a line-oriented ASCII protocol
over a serial port.  We embed it shallowly:

* Numeric values (Python floats) are modelled as exact rationals `ℚ`.
* Python exceptions are modelled by the error type `PyError`; a method is a
  state transformer `M α := TSLState → Except PyError α × TSLState`.  Note an
  error outcome still carries the final state: in Python, side effects
  performed before an exception is raised persist.
* The serial device is modelled inside `TSLState`: `pending` is the queue of
  response lines the device will produce, `sent` is the log of command
  strings written, in order.  `write` appends the command to `sent` and pops
  the next response (the empty string if none is queued).
* The mirrored session fields `is_on` and `power_control` live in the same
  state record.

The source's `sweep_wavelength`/`sweep_frequency` parameter lists are
missing a comma after `delay=0` (a syntax slip); we embed the evident
intended signature.
-/

namespace TSL550

/-- Python exceptions that the driver can raise: `ValueError` from
`float()`/`int()` on unparseable text, `ZeroDivisionError` from `/`,
`KeyError` from a failed dict lookup, and the `AttributeError` explicitly
raised by `sweep_set_mode`. -/
inductive PyError : Type where
  | valueError : PyError
  | zeroDivisionError : PyError
  | keyError : PyError
  | attributeError : String → PyError
deriving DecidableEq, Repr

/-- The mutable state of a session: the two mirrored instrument-state fields
of the Python object (`is_on`, `power_control`), plus the modelled serial
device (queued responses and the log of commands sent). -/
structure TSLState : Type where
  is_on : Bool
  power_control : String
  pending : List String
  sent : List String
deriving DecidableEq, Repr

/-- A driver method: a state transformer that may raise.  The state is
returned even on error, since Python side effects persist past a raise. -/
def M (α : Type) : Type := TSLState → Except PyError α × TSLState

def M.pure {α : Type} (a : α) : M α := fun s => (Except.ok a, s)

def M.bind {α β : Type} (x : M α) (f : α → M β) : M β := fun s =>
  match x s with
  | (Except.error e, s') => (Except.error e, s')
  | (Except.ok a, s') => f a s'

def M.throw {α : Type} (e : PyError) : M α := fun s => (Except.error e, s)

/-- Lift a pure fallible computation (e.g. `float(...)`, a division). -/
def M.liftE {α : Type} (x : Except PyError α) : M α := fun s => (x, s)

def M.get : M TSLState := fun s => (Except.ok s, s)

def M.modifyS (f : TSLState → TSLState) : M Unit := fun s => (Except.ok (), f s)

def M.run {α : Type} (x : M α) (s : TSLState) : Except PyError α × TSLState := x s

/-- Python `/` on our rational model of floats: raises `ZeroDivisionError`
on a zero denominator (Python floats raise here; they do not produce inf). -/
def pyDiv (a b : ℚ) : Except PyError ℚ :=
  if b = 0 then Except.error PyError.zeroDivisionError else Except.ok (a / b)

/-- Numeric value of a digit character. -/
def digitVal (c : Char) : ℕ := c.toNat - 48

/-- The value of a most-significant-first digit string. -/
def natOfDigits (l : List Char) : ℕ := l.foldl (fun acc c => 10 * acc + digitVal c) 0

/-- Models Python `int(s)` on plain optionally-signed decimal integer
literals; anything else raises `ValueError`. -/
def pyInt (s : String) : Except PyError ℤ :=
  match s.toList with
  | '-' :: rest =>
      if rest ≠ [] ∧ rest.all Char.isDigit then Except.ok (-(natOfDigits rest : ℤ))
      else Except.error PyError.valueError
  | '+' :: rest =>
      if rest ≠ [] ∧ rest.all Char.isDigit then Except.ok (natOfDigits rest : ℤ)
      else Except.error PyError.valueError
  | cs =>
      if cs ≠ [] ∧ cs.all Char.isDigit then Except.ok (natOfDigits cs : ℤ)
      else Except.error PyError.valueError

/-- Split a character list at the first `.`, returning the part before it
and, when a dot is present, the part after it. -/
def splitDot : List Char → List Char × Option (List Char)
  | [] => ([], none)
  | '.' :: rest => ([], some rest)
  | c :: rest =>
      let p := splitDot rest
      (c :: p.1, p.2)

/-- The rational denoted by an unsigned decimal literal split as integer
digits and optional fraction digits. -/
def decimalVal (ip : List Char) (fp : Option (List Char)) : ℚ :=
  (natOfDigits ip : ℚ) +
    match fp with
    | none => 0
    | some f => (natOfDigits f : ℚ) / (10 : ℚ) ^ f.length

/-- Is `ip`/`fp` a well-formed unsigned decimal literal?  At least one digit
overall, every character a digit (Python accepts `1.`, `.5`, rejects `.`). -/
def decimalOk (ip : List Char) (fp : Option (List Char)) : Bool :=
  ip.all Char.isDigit &&
    (match fp with
     | none => ip ≠ []
     | some f => f.all Char.isDigit && (ip ≠ [] || f ≠ []))

/-- Models Python `float(s)` on plain optionally-signed decimal literals
(the only forms the instrument produces); anything else raises
`ValueError`.  Values are exact rationals in this model. -/
def pyFloat (s : String) : Except PyError ℚ :=
  let signed : List Char → Except PyError ℚ := fun cs =>
    let p := splitDot cs
    if decimalOk p.1 p.2 then Except.ok (decimalVal p.1 p.2)
    else Except.error PyError.valueError
  match s.toList with
  | '-' :: rest => (signed rest).map (fun q => -q)
  | '+' :: rest => signed rest
  | cs => signed cs

/-- Round a rational to the nearest integer, ties to even — the rounding
Python's fixed-point `format` applies (e.g. `"{:.1f}".format(0.25)` is
`"0.2"`). -/
def roundHalfEven (x : ℚ) : ℤ :=
  let n : ℤ := ⌊x⌋
  let f : ℚ := x - (n : ℚ)
  if f < 1 / 2 then n
  else if 1 / 2 < f then n + 1
  else if n % 2 = 0 then n else n + 1

/-- The character for digit `n` (`n < 10`). -/
def digitChar (n : ℕ) : Char := Char.ofNat (48 + n)

/-- Exactly `k` digit characters, the base-10 digits of `n` padded with
leading zeros (`n < 10 ^ k`). -/
def fracDigits : ℕ → ℕ → List Char
  | 0, _ => []
  | k + 1, n => fracDigits k (n / 10) ++ [digitChar (n % 10)]

/-- Models Python `("{:." + str(prec) + "f}").format(q)` on our exact
rationals: round-half-even at the `prec`-th decimal, sign taken from `q`,
fraction part zero-padded to exactly `prec` digits. -/
def formatFixed (prec : ℕ) (q : ℚ) : String :=
  let m : ℕ := (roundHalfEven (|q| * (10 : ℚ) ^ prec)).toNat
  let ip : ℕ := m / 10 ^ prec
  let fp : ℕ := m % 10 ^ prec
  let sign : String := if q < 0 then "-" else ""
  if prec = 0 then sign ++ Nat.repr ip
  else sign ++ Nat.repr ip ++ "." ++ String.mk (fracDigits prec fp)

/-- `TSL550.write`: frame and send `command`, then read the device's
response line.  In the model the device's future responses are queued in
`pending`; a `write` logs the command and pops the next response. -/
def write (command : String) : M String := fun s =>
  (Except.ok (s.pending.headD ""),
   { s with pending := s.pending.tail, sent := s.sent ++ [command] })

/-- `TSL550._set_var`: generic set-or-query of a floating-point variable.
With a value, sends `name` followed by the value at fixed precision; bare
`name` otherwise.  Returns `float(response)`. -/
def _set_var (name : String) (precision : ℕ) (val : Option ℚ) : M ℚ :=
  let command : String :=
    match val with
    | some v => name ++ formatFixed precision v
    | none => name
  M.bind (write command) (fun response => M.liftE (pyFloat response))

/-- `TSL550.on` (`on` is reserved in Lean, hence the name): set the
mirrored `is_on` flag and send `LO`. -/
def laser_on : M Unit :=
  M.bind (M.modifyS (fun s => { s with is_on := true })) (fun _ =>
  M.bind (write "LO") (fun _ => M.pure ()))

/-- `TSL550.off`: clear the mirrored `is_on` flag and send `LF`. -/
def off : M Unit :=
  M.bind (M.modifyS (fun s => { s with is_on := false })) (fun _ =>
  M.bind (write "LF") (fun _ => M.pure ()))

def wavelength (val : Option ℚ) : M ℚ := _set_var "WA" 4 val

def frequency (val : Option ℚ) : M ℚ := _set_var "FQ" 5 val

def power_mW (val : Option ℚ) : M ℚ := _set_var "LP" 2 val

def power_dBm (val : Option ℚ) : M ℚ := _set_var "OP" 2 val

/-- `TSL550.power_auto`: set the mirrored mode and send `AF`. -/
def power_auto : M Unit :=
  M.bind (M.modifyS (fun s => { s with power_control := "auto" })) (fun _ =>
  M.bind (write "AF") (fun _ => M.pure ()))

/-- `TSL550.power_manual`: set the mirrored mode and send `AO`. -/
def power_manual : M Unit :=
  M.bind (M.modifyS (fun s => { s with power_control := "manual" })) (fun _ =>
  M.bind (write "AO") (fun _ => M.pure ()))

/-- `TSL550.SWEEP_MODE_MAP` as written in the source: the association from
(continuous, two-way, external trigger, constant frequency interval)
4-tuples to integer mode codes, in source order. -/
def SWEEP_MODE_LIST : List ((Bool × Bool × Bool × Bool) × ℤ) :=
  [((true, false, false, false), 1),
   ((true, true, false, false), 2),
   ((false, false, false, false), 3),
   ((false, true, false, false), 4),
   ((false, false, false, true), 5),
   ((false, true, false, true), 6),
   ((true, false, true, false), 7),
   ((true, true, true, false), 8),
   ((false, false, true, false), 9),
   ((false, true, true, false), 10),
   ((false, false, true, true), 11),
   ((false, true, true, true), 12)]

/-- Dict lookup `SWEEP_MODE_MAP[t]`; `none` models `KeyError`. -/
def SWEEP_MODE_MAP (t : Bool × Bool × Bool × Bool) : Option ℤ :=
  (SWEEP_MODE_LIST.find? (fun p => p.1 == t)).map (fun p => p.2)

/-- The comprehension-built reverse dict `SWEEP_MODE_MAP_REV[n]`; `none`
models `KeyError`. -/
def SWEEP_MODE_MAP_REV (n : ℤ) : Option (Bool × Bool × Bool × Bool) :=
  (SWEEP_MODE_LIST.find? (fun p => p.2 == n)).map (fun p => p.1)

/-- Sweep status constants of the source. -/
def SWEEP_OFF : ℤ := 0

def SWEEP_RUNNING : ℤ := 1

def SWEEP_PAUSED : ℤ := 2

def SWEEP_TRIGGER_WAIT : ℤ := 3

def SWEEP_JUMP : ℤ := 4

/-- `TSL550.sweep_set_mode`: look the 4-tuple up in `SWEEP_MODE_MAP`; a
missing key (`KeyError`) is re-raised as
`AttributeError("Invalid sweep configuration.")`; otherwise send
`SM<code>`. -/
def sweep_set_mode (continuous twoway trigger const_freq_step : Bool) : M Unit :=
  match SWEEP_MODE_MAP (continuous, twoway, trigger, const_freq_step) with
  | none => M.throw (PyError.attributeError "Invalid sweep configuration.")
  | some mode => M.bind (write ("SM" ++ toString mode)) (fun _ => M.pure ())

/-- `TSL550.sweep_get_mode`: query `SM`, parse the code with `int`, then
look it up in `SWEEP_MODE_MAP_REV`; a missing key raises a bare
`KeyError`.  The Python result dict is modelled as the 4-tuple
(continuous, twoway, trigger, const_freq_step). -/
def sweep_get_mode : M (Bool × Bool × Bool × Bool) :=
  M.bind (write "SM") (fun r =>
  M.bind (M.liftE (pyInt r)) (fun mode_num =>
  match SWEEP_MODE_MAP_REV mode_num with
  | none => M.throw PyError.keyError
  | some mode_settings => M.pure mode_settings))

/-- `TSL550.sweep_status`: query `SK` and return `int(response)` — no range
check of any kind. -/
def sweep_status : M ℤ :=
  M.bind (write "SK") (fun r => M.liftE (pyInt r))

def sweep_speed (val : Option ℚ) : M ℚ := _set_var "SN" 1 val

def sweep_step_wavelength (val : Option ℚ) : M ℚ := _set_var "WW" 4 val

def sweep_step_frequency (val : Option ℚ) : M ℚ := _set_var "WF" 5 val

def sweep_step_time (val : Option ℚ) : M ℚ := _set_var "SB" 1 val

def sweep_delay (val : Option ℚ) : M ℚ := _set_var "SA" 1 val

def sweep_start_wavelength (val : Option ℚ) : M ℚ := _set_var "SS" 4 val

def sweep_start_frequency (val : Option ℚ) : M ℚ := _set_var "FS" 5 val

def sweep_end_wavelength (val : Option ℚ) : M ℚ := _set_var "SE" 4 val

def sweep_end_frequency (val : Option ℚ) : M ℚ := _set_var "FF" 5 val

/-- `TSL550.sweep_start`: send the repeat count `SZ<num>` then `SG`. -/
def sweep_start (num : ℤ) : M Unit :=
  M.bind (write ("SZ" ++ toString num)) (fun _ =>
  M.bind (write "SG") (fun _ => M.pure ()))

def sweep_pause : M Unit := M.bind (write "SP") (fun _ => M.pure ())

def sweep_resume : M Unit := M.bind (write "SR") (fun _ => M.pure ())

/-- `TSL550.sweep_stop`: pause first when `immediate`, then send `SQ`. -/
def sweep_stop (immediate : Bool) : M Unit :=
  M.bind (if immediate then sweep_pause else M.pure ()) (fun _ =>
  M.bind (write "SQ") (fun _ => M.pure ()))

/-- `TSL550.sweep_wavelength`: program bounds, delay, then either a
continuous speed `|stop - start| / duration` (doubled when two-way) or a
stepwise per-step time `duration / (|stop - start| / step_size)` (halved
when two-way); program the mode with `const_freq_step = false`; switch the
diode on if the mirror says it is off; start `number` sweeps. -/
def sweep_wavelength (start stop duration : ℚ) (number : ℤ) (delay : ℚ)
    (continuous : Bool) (step_size : ℚ) (twoway : Bool) (trigger : Bool) : M Unit :=
  M.bind (sweep_start_wavelength (some start)) (fun _ =>
  M.bind (sweep_end_wavelength (some stop)) (fun _ =>
  M.bind (sweep_delay (some delay)) (fun _ =>
  M.bind
    (if continuous then
      M.bind (M.liftE (pyDiv (|stop - start|) duration)) (fun speed =>
      M.bind (sweep_speed (some (if twoway then speed * 2 else speed))) (fun _ =>
      M.pure ()))
    else
      M.bind (M.liftE (pyDiv (|stop - start|) step_size)) (fun steps =>
      M.bind (M.liftE (pyDiv duration steps)) (fun time =>
      M.bind (sweep_step_time (some (if twoway then time / 2 else time))) (fun _ =>
      M.pure ()))))
    (fun _ =>
  M.bind (sweep_set_mode continuous twoway trigger false) (fun _ =>
  M.bind M.get (fun s =>
  M.bind (if !s.is_on then laser_on else M.pure ()) (fun _ =>
  sweep_start number)))))))

/-- `TSL550.sweep_frequency`: identical to `sweep_wavelength` except for the
bound mnemonics (`FS`/`FF`) and `const_freq_step = true` in the mode. -/
def sweep_frequency (start stop duration : ℚ) (number : ℤ) (delay : ℚ)
    (continuous : Bool) (step_size : ℚ) (twoway : Bool) (trigger : Bool) : M Unit :=
  M.bind (sweep_start_frequency (some start)) (fun _ =>
  M.bind (sweep_end_frequency (some stop)) (fun _ =>
  M.bind (sweep_delay (some delay)) (fun _ =>
  M.bind
    (if continuous then
      M.bind (M.liftE (pyDiv (|stop - start|) duration)) (fun speed =>
      M.bind (sweep_speed (some (if twoway then speed * 2 else speed))) (fun _ =>
      M.pure ()))
    else
      M.bind (M.liftE (pyDiv (|stop - start|) step_size)) (fun steps =>
      M.bind (M.liftE (pyDiv duration steps)) (fun time =>
      M.bind (sweep_step_time (some (if twoway then time / 2 else time))) (fun _ =>
      M.pure ()))))
    (fun _ =>
  M.bind (sweep_set_mode continuous twoway trigger true) (fun _ =>
  M.bind M.get (fun s =>
  M.bind (if !s.is_on then laser_on else M.pure ()) (fun _ =>
  sweep_start number)))))))

/-- `TSL550.__init__` after opening the port: force `is_on := false` and
`off()`, then `power_control := "auto"` and `power_auto()`, then
`sweep_set_mode` with its defaults (continuous, two-way, no trigger, no
constant frequency step). -/
def init : M Unit :=
  M.bind (M.modifyS (fun s => { s with is_on := false })) (fun _ =>
  M.bind off (fun _ =>
  M.bind (M.modifyS (fun s => { s with power_control := "auto" })) (fun _ =>
  M.bind power_auto (fun _ =>
  sweep_set_mode true true false false))))

/-! Theorems about the embedded driver. -/

/-- C1: the sweep-mode encoding is a bijection between the 12 valid 4-tuples
(continuous, twoway, external_trigger, const_frequency_step) — those not
combining `continuous` with `const_frequency_step` — and the integer codes 1
through 12: decoding the encoded code returns the tuple, every valid tuple's
code lies in `[1, 12]`, and distinct valid tuples get distinct codes. -/
theorem sweep_mode_map_bijection :
    ∀ a b c d a' b' c' d' : Bool,
      ¬(a = true ∧ d = true) → ¬(a' = true ∧ d' = true) →
      ((SWEEP_MODE_MAP (a, b, c, d)).bind SWEEP_MODE_MAP_REV = some (a, b, c, d)
        ∧ (SWEEP_MODE_MAP (a, b, c, d)).isSome = true
        ∧ 1 ≤ (SWEEP_MODE_MAP (a, b, c, d)).getD 0
        ∧ (SWEEP_MODE_MAP (a, b, c, d)).getD 0 ≤ 12
        ∧ (SWEEP_MODE_MAP (a, b, c, d) = SWEEP_MODE_MAP (a', b', c', d') →
            (a, b, c, d) = (a', b', c', d'))) := by
  intro a b c d a' b' c' d'
  cases a <;> cases b <;> cases c <;> cases d <;>
    cases a' <;> cases b' <;> cases c' <;> cases d' <;> decide

/-- Witness for C1 at the concrete tuples `(true, false, false, false)` and
`(false, true, true, true)`. -/
theorem sweep_mode_map_bijection_witness :
    (SWEEP_MODE_MAP (true, false, false, false)).bind SWEEP_MODE_MAP_REV
      = some (true, false, false, false) :=
  (sweep_mode_map_bijection true false false false false true true true
    (by decide) (by decide)).1

/-- C2: for every 4-tuple with `continuous = true` and
`const_freq_step = true`, whatever the other two axes, `sweep_set_mode`
raises `AttributeError("Invalid sweep configuration.")` (the code-level
realization of `InvalidSweepConfiguration`) and leaves the state — in
particular the log of commands sent — untouched. -/
theorem sweep_set_mode_rejects_continuous_const_freq :
    ∀ (twoway trigger : Bool) (s : TSLState),
      (sweep_set_mode true twoway trigger true).run s
        = (Except.error (PyError.attributeError "Invalid sweep configuration."), s) := by
  intro twoway trigger s
  cases twoway <;> cases trigger <;> rfl

/-- C6 counterexample: a device status response of `5` does NOT make
`sweep_status` fail — it returns the value `5` unchanged, because the code
does `int(self.write("SK"))` with no range check at all. -/
theorem sweep_status_code5_returns_value :
    (sweep_status.run ⟨false, "auto", ["5"], []⟩).1 = Except.ok 5 := rfl

/-- C6 amended: device codes 0–4 are returned as the corresponding status
constants `SWEEP_OFF`, `SWEEP_RUNNING`, `SWEEP_PAUSED`,
`SWEEP_TRIGGER_WAIT`, `SWEEP_JUMP`; a numeric value outside 0–4 such as 5
is returned as-is rather than failing — the decoding is the identity on
integers and performs no validation. -/
theorem sweep_status_decoding :
    ∀ (ion : Bool) (pc : String) (rest log : List String),
      ((sweep_status.run ⟨ion, pc, "0" :: rest, log⟩).1 = Except.ok SWEEP_OFF)
      ∧ ((sweep_status.run ⟨ion, pc, "1" :: rest, log⟩).1 = Except.ok SWEEP_RUNNING)
      ∧ ((sweep_status.run ⟨ion, pc, "2" :: rest, log⟩).1 = Except.ok SWEEP_PAUSED)
      ∧ ((sweep_status.run ⟨ion, pc, "3" :: rest, log⟩).1 = Except.ok SWEEP_TRIGGER_WAIT)
      ∧ ((sweep_status.run ⟨ion, pc, "4" :: rest, log⟩).1 = Except.ok SWEEP_JUMP)
      ∧ ((sweep_status.run ⟨ion, pc, "5" :: rest, log⟩).1 = Except.ok 5) := by
  intro ion pc rest log
  exact ⟨rfl, rfl, rfl, rfl, rfl, rfl⟩

/-- An `Except` whose `isOk` check passes carries a value. -/
theorem exists_ok_of_isOk {α : Type} {e : Except PyError α} (h : e.isOk = true) :
    ∃ q, e = Except.ok q := by
  cases e with
  | error e' => exact Bool.noConfusion h
  | ok q => exact ⟨q, rfl⟩

/-- C3: in continuous mode with parseable device responses and positive
duration, the fourth command sent — the speed programmed through the `SN`
codec — carries `|stop - start| / duration`, doubled when `twoway`, for
both the wavelength and the frequency sweep. -/
theorem continuous_sweep_speed :
    ∀ (start stop duration delay step_size : ℚ) (number : ℤ) (twoway trigger ion : Bool)
      (pc : String) (r1 r2 r3 r4 : String),
      0 < duration →
      (pyFloat r1).isOk = true → (pyFloat r2).isOk = true → (pyFloat r3).isOk = true →
      (((sweep_wavelength start stop duration number delay true step_size twoway trigger).run
            ⟨ion, pc, [r1, r2, r3, r4], []⟩).2.sent.get? 3
          = some ("SN" ++ formatFixed 1
              (if twoway then |stop - start| / duration * 2 else |stop - start| / duration)))
      ∧ (((sweep_frequency start stop duration number delay true step_size twoway trigger).run
            ⟨ion, pc, [r1, r2, r3, r4], []⟩).2.sent.get? 3
          = some ("SN" ++ formatFixed 1
              (if twoway then |stop - start| / duration * 2 else |stop - start| / duration))) := by
  intro start stop duration delay step_size number twoway trigger ion pc r1 r2 r3 r4 hdur h1 h2 h3
  obtain ⟨q1, hq1⟩ := exists_ok_of_isOk h1
  obtain ⟨q2, hq2⟩ := exists_ok_of_isOk h2
  obtain ⟨q3, hq3⟩ := exists_ok_of_isOk h3
  have hd : duration ≠ 0 := ne_of_gt hdur
  rcases hq4 : pyFloat r4 with e4 | q4 <;>
    cases twoway <;> cases trigger <;> cases ion <;>
      simp [sweep_wavelength, sweep_frequency, sweep_start_wavelength, sweep_end_wavelength,
        sweep_start_frequency, sweep_end_frequency, sweep_delay, sweep_speed, sweep_set_mode,
        sweep_start, laser_on, _set_var, write, M.run, M.bind, M.liftE, M.pure, M.get, M.throw,
        M.modifyS, pyDiv, hq1, hq2, hq3, hq4, hd, SWEEP_MODE_MAP, SWEEP_MODE_LIST]

/-- Witness for C3: a 1500→1600 nm sweep over 10 s, one-way. -/
theorem continuous_sweep_speed_witness :
    ((sweep_wavelength 1500 1600 10 1 0 true 1 false false).run
        ⟨true, "auto", ["0", "0", "0", "0"], []⟩).2.sent.get? 3
      = some ("SN" ++ formatFixed 1
          (if false then |(1600 : ℚ) - 1500| / 10 * 2 else |(1600 : ℚ) - 1500| / 10)) :=
  (continuous_sweep_speed 1500 1600 10 0 1 1 false false true "auto" "0" "0" "0" "0"
    (by norm_num) rfl rfl rfl).1

/-- C4: in stepwise mode with nonzero step size, distinct bounds and
parseable device responses, the fourth command sent — the per-step time
programmed through the `SB` codec — carries
`duration / (|stop - start| / step_size)`, halved when `twoway`, for both
the wavelength and the frequency sweep. -/
theorem stepwise_sweep_step_time :
    ∀ (start stop duration delay step_size : ℚ) (number : ℤ) (twoway trigger ion : Bool)
      (pc : String) (r1 r2 r3 r4 : String),
      step_size ≠ 0 → stop ≠ start →
      (pyFloat r1).isOk = true → (pyFloat r2).isOk = true → (pyFloat r3).isOk = true →
      (((sweep_wavelength start stop duration number delay false step_size twoway trigger).run
            ⟨ion, pc, [r1, r2, r3, r4], []⟩).2.sent.get? 3
          = some ("SB" ++ formatFixed 1
              (if twoway then duration / (|stop - start| / step_size) / 2
               else duration / (|stop - start| / step_size))))
      ∧ (((sweep_frequency start stop duration number delay false step_size twoway trigger).run
            ⟨ion, pc, [r1, r2, r3, r4], []⟩).2.sent.get? 3
          = some ("SB" ++ formatFixed 1
              (if twoway then duration / (|stop - start| / step_size) / 2
               else duration / (|stop - start| / step_size)))) := by
  intro start stop duration delay step_size number twoway trigger ion pc r1 r2 r3 r4 hss hne h1 h2 h3
  obtain ⟨q1, hq1⟩ := exists_ok_of_isOk h1
  obtain ⟨q2, hq2⟩ := exists_ok_of_isOk h2
  obtain ⟨q3, hq3⟩ := exists_ok_of_isOk h3
  have hsteps : |stop - start| / step_size ≠ 0 :=
    div_ne_zero (abs_ne_zero.mpr (sub_ne_zero.mpr hne)) hss
  rcases hq4 : pyFloat r4 with e4 | q4 <;>
    cases twoway <;> cases trigger <;> cases ion <;>
      simp [sweep_wavelength, sweep_frequency, sweep_start_wavelength, sweep_end_wavelength,
        sweep_start_frequency, sweep_end_frequency, sweep_delay, sweep_step_time, sweep_set_mode,
        sweep_start, laser_on, _set_var, write, M.run, M.bind, M.liftE, M.pure, M.get, M.throw,
        M.modifyS, pyDiv, hq1, hq2, hq3, hq4, hss, hsteps, SWEEP_MODE_MAP, SWEEP_MODE_LIST]

/-- Witness for C4: a 1500→1600 nm stepwise sweep over 10 s at step 1 nm,
two-way. -/
theorem stepwise_sweep_step_time_witness :
    ((sweep_wavelength 1500 1600 10 1 0 false 1 true false).run
        ⟨true, "auto", ["0", "0", "0", "0"], []⟩).2.sent.get? 3
      = some ("SB" ++ formatFixed 1
          (if true then (10 : ℚ) / (|(1600 : ℚ) - 1500| / 1) / 2
           else (10 : ℚ) / (|(1600 : ℚ) - 1500| / 1))) :=
  (stepwise_sweep_step_time 1500 1600 10 0 1 1 true false true "auto" "0" "0" "0" "0"
    (by norm_num) (by norm_num) rfl rfl rfl).1

/-- C5 counterexample: a continuous sweep with `stop == start` does NOT
fail: `abs(stop - start) / duration` is simply `0.0`, the speed `0.0` is
programmed and the sweep starts.  (No `DegenerateSweepRange` error exists
anywhere in the code.) -/
theorem degenerate_sweep_no_config_error :
    ((sweep_wavelength 1500 1500 10 1 0 true 1 true false).run
        ⟨false, "auto", ["0", "0", "0", "0"], []⟩).1 = Except.ok () := rfl

/-- C5 amended: degenerate ranges are not detected.  In stepwise mode,
`step_size = 0`, or `stop = start` (making `steps = 0`), raises an
uncaught `ZeroDivisionError` — not a `DegenerateSweepRange` configuration
error — after the bounds and delay commands and before any timing command
is sent.  In continuous mode `stop = start` does not fail at all: the
speed command carries `0.0`.  In no case is an infinite or NaN timing
value produced (the model's division is exact and raises on zero). -/
theorem degenerate_sweep_behaviour :
    ∀ (start stop duration delay step_size : ℚ) (number : ℤ) (twoway trigger ion : Bool)
      (pc : String) (r1 r2 r3 r4 : String),
      step_size ≠ 0 → duration ≠ 0 →
      (pyFloat r1).isOk = true → (pyFloat r2).isOk = true → (pyFloat r3).isOk = true →
      ((sweep_wavelength start stop duration number delay false 0 twoway trigger).run
            ⟨ion, pc, [r1, r2, r3, r4], []⟩
          = (Except.error PyError.zeroDivisionError,
             ⟨ion, pc, [r4],
              ["SS" ++ formatFixed 4 start, "SE" ++ formatFixed 4 stop,
               "SA" ++ formatFixed 1 delay]⟩))
      ∧ ((sweep_frequency start stop duration number delay false 0 twoway trigger).run
            ⟨ion, pc, [r1, r2, r3, r4], []⟩
          = (Except.error PyError.zeroDivisionError,
             ⟨ion, pc, [r4],
              ["FS" ++ formatFixed 5 start, "FF" ++ formatFixed 5 stop,
               "SA" ++ formatFixed 1 delay]⟩))
      ∧ ((sweep_wavelength start start duration number delay false step_size twoway trigger).run
            ⟨ion, pc, [r1, r2, r3, r4], []⟩
          = (Except.error PyError.zeroDivisionError,
             ⟨ion, pc, [r4],
              ["SS" ++ formatFixed 4 start, "SE" ++ formatFixed 4 start,
               "SA" ++ formatFixed 1 delay]⟩))
      ∧ ((sweep_frequency start start duration number delay false step_size twoway trigger).run
            ⟨ion, pc, [r1, r2, r3, r4], []⟩
          = (Except.error PyError.zeroDivisionError,
             ⟨ion, pc, [r4],
              ["FS" ++ formatFixed 5 start, "FF" ++ formatFixed 5 start,
               "SA" ++ formatFixed 1 delay]⟩))
      ∧ (((sweep_wavelength start start duration number delay true step_size twoway trigger).run
            ⟨ion, pc, [r1, r2, r3, r4], []⟩).2.sent.get? 3
          = some ("SN" ++ formatFixed 1 0))
      ∧ (((sweep_frequency start start duration number delay true step_size twoway trigger).run
            ⟨ion, pc, [r1, r2, r3, r4], []⟩).2.sent.get? 3
          = some ("SN" ++ formatFixed 1 0)) := by
  intro start stop duration delay step_size number twoway trigger ion pc r1 r2 r3 r4 hss hdur h1 h2 h3
  obtain ⟨q1, hq1⟩ := exists_ok_of_isOk h1
  obtain ⟨q2, hq2⟩ := exists_ok_of_isOk h2
  obtain ⟨q3, hq3⟩ := exists_ok_of_isOk h3
  rcases hq4 : pyFloat r4 with e4 | q4 <;>
    cases twoway <;> cases trigger <;> cases ion <;>
      simp [sweep_wavelength, sweep_frequency, sweep_start_wavelength, sweep_end_wavelength,
        sweep_start_frequency, sweep_end_frequency, sweep_delay, sweep_speed, sweep_step_time,
        sweep_set_mode, sweep_start, laser_on, _set_var, write, M.run, M.bind, M.liftE, M.pure,
        M.get, M.throw, M.modifyS, pyDiv, hq1, hq2, hq3, hq4, hss, hdur,
        SWEEP_MODE_MAP, SWEEP_MODE_LIST]

/-- Witness for the C5 amended theorem: stepwise sweep with step size 0
fails with `ZeroDivisionError` after three commands. -/
theorem degenerate_sweep_behaviour_witness :
    (sweep_wavelength 1500 1600 10 1 0 false 0 true false).run
        ⟨false, "auto", ["0", "0", "0", "0"], []⟩
      = (Except.error PyError.zeroDivisionError,
         ⟨false, "auto", ["0"],
          ["SS" ++ formatFixed 4 1500, "SE" ++ formatFixed 4 1600,
           "SA" ++ formatFixed 1 0]⟩) :=
  (degenerate_sweep_behaviour 1500 1600 10 0 1 1 true false false "auto" "0" "0" "0" "0"
    (by norm_num) (by norm_num) rfl rfl rfl).1

/-- The padded fraction-digit list has exactly the requested length. -/
theorem fracDigits_length : ∀ k n : ℕ, (fracDigits k n).length = k := by
  intro k
  induction k with
  | zero => intro n; rfl
  | succ k ih => intro n; simp [fracDigits, ih]

/-- C7: with a present value, `_set_var` sends the mnemonic immediately
followed by the value formatted at the given precision (`formatFixed`,
whose fraction part for nonzero precision is a dot followed by exactly
`precision` digit characters); with an absent value it sends the bare
mnemonic; in both cases it returns the device response parsed as a float.
Concretely, mnemonic `"WA"`, precision 4, value 1550.12345 sends exactly
`"WA1550.1234"` (numbers are exact rationals in this model; rounding is the
round-half-even of Python's fixed-point format) and on response
`"1550.1234"` returns 1550.1234. -/
theorem set_var_codec :
    (∀ (name : String) (precision : ℕ) (v : ℚ) (s : TSLState),
        ((_set_var name precision (some v)).run s).2.sent
            = s.sent ++ [name ++ formatFixed precision v]
          ∧ ((_set_var name precision (some v)).run s).1 = pyFloat (s.pending.headD ""))
    ∧ (∀ (name : String) (precision : ℕ) (s : TSLState),
        ((_set_var name precision none).run s).2.sent = s.sent ++ [name]
          ∧ ((_set_var name precision none).run s).1 = pyFloat (s.pending.headD ""))
    ∧ (∀ (precision : ℕ) (v : ℚ), precision ≠ 0 →
        formatFixed precision v
            = (if v < 0 then "-" else "")
                ++ Nat.repr ((roundHalfEven (|v| * (10 : ℚ) ^ precision)).toNat / 10 ^ precision)
                ++ "." ++ String.mk (fracDigits precision
                      ((roundHalfEven (|v| * (10 : ℚ) ^ precision)).toNat % 10 ^ precision))
          ∧ (fracDigits precision
                ((roundHalfEven (|v| * (10 : ℚ) ^ precision)).toNat % 10 ^ precision)).length
              = precision)
    ∧ ((_set_var "WA" 4 (some (155012345 / 100000))).run
          ⟨false, "auto", ["1550.1234"], []⟩).2.sent = ["WA1550.1234"]
    ∧ ((_set_var "WA" 4 (some (155012345 / 100000))).run
          ⟨false, "auto", ["1550.1234"], []⟩).1 = Except.ok (15501234 / 10000) := by
  refine ⟨?_, ?_, ?_, ?_, ?_⟩
  · intro name precision v s
    exact ⟨rfl, rfl⟩
  · intro name precision s
    exact ⟨rfl, rfl⟩
  · intro precision v hp
    refine ⟨?_, fracDigits_length precision _⟩
    simp only [formatFixed, if_neg hp]
  · have hval : roundHalfEven (|(155012345 / 100000 : ℚ)| * (10 : ℚ) ^ (4 : ℕ)) = 15501234 := by
      have habs : |(155012345 / 100000 : ℚ)| * (10 : ℚ) ^ (4 : ℕ) = 31002469 / 2 := by
        rw [abs_of_nonneg (by norm_num : (0 : ℚ) ≤ 155012345 / 100000)]
        norm_num
      rw [habs]
      simp only [roundHalfEven]
      norm_num
    have hneg : ¬ (155012345 / 100000 : ℚ) < 0 := by norm_num
    have hfmt : formatFixed 4 (155012345 / 100000) = "1550.1234" := by
      simp only [formatFixed, hval, hneg, if_false]
      norm_num
      rfl
    show [] ++ ["WA" ++ formatFixed 4 (155012345 / 100000)] = ["WA1550.1234"]
    rw [hfmt]
    rfl
  · have hok : pyFloat "1550.1234"
        = Except.ok (((1550 : ℕ) : ℚ) + ((1234 : ℕ) : ℚ) / (10 : ℚ) ^ (4 : ℕ)) := rfl
    show pyFloat "1550.1234" = Except.ok (15501234 / 10000)
    rw [hok]
    exact congrArg Except.ok (by push_cast; norm_num)

/-- Witness for C7's precision clause at precision 4 and value 1550.12345:
the formatted fraction part has exactly 4 digits. -/
theorem set_var_codec_witness :
    (fracDigits 4
        ((roundHalfEven (|(155012345 / 100000 : ℚ)| * (10 : ℚ) ^ 4)).toNat % 10 ^ 4)).length
      = 4 :=
  (set_var_codec.2.2.1 4 (155012345 / 100000) (by decide)).2

/-- C9 counterexample: decoding the out-of-table code 13 makes
`sweep_get_mode` fail with a bare `KeyError` from the reverse-table lookup,
not with `AttributeError("Invalid sweep configuration.")` — the code-level
realization of `InvalidSweepConfiguration`, which is what the encoding path
`sweep_set_mode` raises. -/
theorem sweep_get_mode_code13_keyerror :
    (sweep_get_mode.run ⟨false, "auto", ["13"], []⟩).1 = Except.error PyError.keyError
    ∧ (sweep_get_mode.run ⟨false, "auto", ["13"], []⟩).1
        ≠ Except.error (PyError.attributeError "Invalid sweep configuration.") := by
  refine ⟨rfl, ?_⟩
  have h1 : (sweep_get_mode.run ⟨false, "auto", ["13"], []⟩).1
      = Except.error PyError.keyError := rfl
  rw [h1]
  simp

/-- C9 amended: for every integer code outside the 12-entry mode table
(exactly the codes not in `[1, 12]`), `sweep_get_mode` fails — with an
uncaught `KeyError` from the reverse-table lookup, not with the
`InvalidSweepConfiguration` error of the encoding path — rather than
silently defaulting to any configuration. -/
theorem sweep_get_mode_out_of_table_fails :
    (∀ (n : ℤ) (r : String) (ion : Bool) (pc : String) (rest log : List String),
        pyInt r = Except.ok n → SWEEP_MODE_MAP_REV n = none →
        (sweep_get_mode.run ⟨ion, pc, r :: rest, log⟩).1 = Except.error PyError.keyError)
    ∧ (∀ n : ℤ, SWEEP_MODE_MAP_REV n = none ↔ ¬(1 ≤ n ∧ n ≤ 12)) := by
  constructor
  · intro n r ion pc rest log hr hn
    simp [sweep_get_mode, M.run, M.bind, write, M.liftE, M.throw, hr, hn]
  · intro n
    simp only [SWEEP_MODE_MAP_REV, SWEEP_MODE_LIST, Option.map_eq_none',
      List.find?_eq_none, List.mem_cons, List.not_mem_nil]
    constructor
    · intro h hrange
      rcases hrange with ⟨h1, h12⟩
      interval_cases n <;> simp_all
    · intro h p hp hbeq
      rcases hp with hp | hp | hp | hp | hp | hp | hp | hp | hp | hp | hp | hp | hp <;>
        (first
          | (subst hp; simp only [beq_iff_eq] at hbeq; omega)
          | exact hp.elim)

/-- Witness for the C9 amended theorem at the concrete code 13. -/
theorem sweep_get_mode_out_of_table_fails_witness :
    (sweep_get_mode.run ⟨false, "auto", ["13", "x"], ["LF"]⟩).1
      = Except.error PyError.keyError :=
  sweep_get_mode_out_of_table_fails.1 13 "13" false "auto" ["x"] ["LF"] rfl rfl

/-- C8: on construction (after opening the port), the first command sent is
`off()`'s `LF`, before any other command, followed by the automatic
power-control command `AF`, followed by `SM2` — the default sweep mode
(continuous, two-way, no trigger, no constant frequency step, code 2) —
and the mirrored `is_on` flag is `false` afterwards regardless of the
prior session state or queued device responses. -/
theorem init_command_sequence :
    ∀ (ion : Bool) (pc : String) (pending : List String),
      init.run ⟨ion, pc, pending, []⟩
        = (Except.ok (),
           ⟨false, "auto", pending.tail.tail.tail, ["LF", "AF", "SM2"]⟩) := by
  intro ion pc pending
  rfl

/-- C10: every scalar get/set going through `_set_var` — wavelength,
frequency, power in mW and dBm, sweep speed, step sizes, step time, delay
and sweep start/end bounds — leaves the mirrored `is_on` and
`power_control` fields unchanged, for every input value and every queued
device response. -/
theorem scalar_ops_preserve_mirrored_state :
    ∀ (val : Option ℚ) (s : TSLState),
      (((wavelength val).run s).2.is_on = s.is_on
        ∧ ((wavelength val).run s).2.power_control = s.power_control)
      ∧ (((frequency val).run s).2.is_on = s.is_on
        ∧ ((frequency val).run s).2.power_control = s.power_control)
      ∧ (((power_mW val).run s).2.is_on = s.is_on
        ∧ ((power_mW val).run s).2.power_control = s.power_control)
      ∧ (((power_dBm val).run s).2.is_on = s.is_on
        ∧ ((power_dBm val).run s).2.power_control = s.power_control)
      ∧ (((sweep_speed val).run s).2.is_on = s.is_on
        ∧ ((sweep_speed val).run s).2.power_control = s.power_control)
      ∧ (((sweep_step_wavelength val).run s).2.is_on = s.is_on
        ∧ ((sweep_step_wavelength val).run s).2.power_control = s.power_control)
      ∧ (((sweep_step_frequency val).run s).2.is_on = s.is_on
        ∧ ((sweep_step_frequency val).run s).2.power_control = s.power_control)
      ∧ (((sweep_step_time val).run s).2.is_on = s.is_on
        ∧ ((sweep_step_time val).run s).2.power_control = s.power_control)
      ∧ (((sweep_delay val).run s).2.is_on = s.is_on
        ∧ ((sweep_delay val).run s).2.power_control = s.power_control)
      ∧ (((sweep_start_wavelength val).run s).2.is_on = s.is_on
        ∧ ((sweep_start_wavelength val).run s).2.power_control = s.power_control)
      ∧ (((sweep_start_frequency val).run s).2.is_on = s.is_on
        ∧ ((sweep_start_frequency val).run s).2.power_control = s.power_control)
      ∧ (((sweep_end_wavelength val).run s).2.is_on = s.is_on
        ∧ ((sweep_end_wavelength val).run s).2.power_control = s.power_control)
      ∧ (((sweep_end_frequency val).run s).2.is_on = s.is_on
        ∧ ((sweep_end_frequency val).run s).2.power_control = s.power_control) := by
  intro val s
  exact ⟨⟨rfl, rfl⟩, ⟨rfl, rfl⟩, ⟨rfl, rfl⟩, ⟨rfl, rfl⟩, ⟨rfl, rfl⟩, ⟨rfl, rfl⟩,
    ⟨rfl, rfl⟩, ⟨rfl, rfl⟩, ⟨rfl, rfl⟩, ⟨rfl, rfl⟩, ⟨rfl, rfl⟩, ⟨rfl, rfl⟩, ⟨rfl, rfl⟩⟩

end TSL550
